import Mathlib

/-!
Shallow embedding of `theano/tensor/io.py`: the `LoadFromDisk` operation and
the four MPI operations (`MPIRecv`, `MPIRecvWait`, `MPISend`, `MPISendWait`),
together with a model of their external collaborators (numpy dtypes, the
filesystem seen by `numpy.load`, the MPI point-to-point transport, and the
graph engine's storage slots).  Line numbers in doc comments refer to
`src/theano/tensor/io.py`.
-/

/-- Canonical numpy element types, the values of `numpy.dtype(...)`.
Models the (external) numpy dtype objects on a finite alphabet. -/
inductive Dtype
  | float64
  | float32
  | int64
  | int32
  deriving DecidableEq

/-- Dtype identifiers as passed by callers to a constructor (the raw
`dtype` argument, before `numpy.dtype` canonicalization).  `d` and `l` are
numpy one-letter aliases for `float64` and (on the platforms this code
targets) `int64`. -/
inductive DtypeId
  | f64
  | d
  | i64
  | l
  | f32
  | i32
  deriving DecidableEq

/-- Models `numpy.dtype`: canonicalize a type identifier ("turn
`\x22float64\x22` into `numpy.float64`", io.py line 20 and line 108). -/
def numpyDtype : DtypeId → Dtype
  | .f64 => .float64
  | .d => .float64
  | .i64 => .int64
  | .l => .int64
  | .f32 => .float32
  | .i32 => .int32

/-- An MPI request token, as returned by `comm.Irecv` / `comm.Isend`.
`me` is the rank of the process that issued the request (taken from the
process-wide communication context `comm`, io.py line 87). -/
inductive MpiRequest
  | recvReq (me src tag : Nat)
  | sendReq (me dst tag : Nat)
  deriving DecidableEq

/-- A Python runtime value flowing through storage slots: a numpy array
(dtype, shape, flat integer data — integer contents suffice for every claim),
an MPI request token, or a boolean. -/
inductive PyVal
  | arr (dtype : Dtype) (shape : List Nat) (data : List Int)
  | req (r : MpiRequest)
  | pybool (b : Bool)
  deriving DecidableEq

/-- Python exceptions raised by io.py, one constructor per raise site /
failure mode:
* `valueErrorMmap`: `ValueError` in `LoadFromDisk.__init__` (lines 22-24),
  the configuration error for an unsupported mmap mode;
* `valueErrorNpz`: `ValueError` in `LoadFromDisk.perform` (lines 42-43),
  the format error for a `.npz` path;
* `typeErrorDtype`: `TypeError` in `LoadFromDisk.perform` (lines 45-47),
  the element-type mismatch error;
* `nameError`: an unbound module global (`comm` when `from mpi4py import
  MPI` failed, lines 85-90);
* `attributeError`: a missing attribute (`self.type` in the Wait
  `__hash__` methods, lines 149-150 and 223-224);
* `indexError`: an out-of-range index on a Python list. -/
inductive PyErr
  | valueErrorMmap (got : Option String)
  | valueErrorNpz (path : String)
  | typeErrorDtype (expected got : Dtype)
  | nameError (name : String)
  | attributeError (name : String)
  | indexError
  deriving DecidableEq

deriving instance DecidableEq for Except

/-- A single-array `.npy` file as decoded by `numpy.load`: stored element
type, shape, and flat data. -/
structure NpyFile where
  dtype : Dtype
  shape : List Nat
  data : List Int
  deriving DecidableEq

/-- Models Python's `path.split('.')` on the character list of the path:
split into groups at every dot. -/
def splitDot : List Char → List (List Char)
  | [] => [[]]
  | c :: rest =>
    let r := splitDot rest
    if c = '.' then [] :: r
    else
      match r with
      | [] => [[c]]
      | g :: gs => (c :: g) :: gs

/-- `path.split('.')[-1]` (io.py line 42): the last dot-separated component
of the path. -/
def pathExt (path : String) : String :=
  String.mk ((splitDot path.data).getLastD [])

/-- Models `numpy.load(path, mmap_mode=...)` on a filesystem `fs` mapping
paths to decoded single-array files.  The mmap mode changes only how the
bytes become resident, never the decoded value, so it is ignored here. -/
def numpyLoad (fs : String → NpyFile) (path : String) (_mmap_mode : Option String) : NpyFile :=
  fs path

/-- The `LoadFromDisk` operation's per-node state, set once by `__init__`
(io.py lines 19-26): `dtype := numpy.dtype(dtypeArg)` is the canonicalized
element type, while `_info` (modelled by `LoadFromDisk.info` below) retains
the raw `dtypeArg` that the constructor received. -/
structure LoadFromDisk where
  dtype : Dtype
  broadcastable : List Bool
  mmap_mode : Option String
  dtypeArg : DtypeId
  deriving DecidableEq

/-- `LoadFromDisk.__init__` (io.py lines 19-26): canonicalize the dtype,
record the broadcastable pattern, and reject any `mmap_mode` outside
`(None, 'c')` with a `ValueError` at construction time. -/
def LoadFromDisk.init (dtype : DtypeId) (broadcastable : List Bool)
    (mmap_mode : Option String) : Except PyErr LoadFromDisk :=
  if mmap_mode = none ∨ mmap_mode = some "c" then
    .ok { dtype := numpyDtype dtype, broadcastable := broadcastable,
          mmap_mode := mmap_mode, dtypeArg := dtype }
  else
    .error (.valueErrorMmap mmap_mode)

/-- `self._info` of a `LoadFromDisk` node (io.py line 26): the tuple
`(dtype, broadcastable, mmap_mode)` where `dtype` is the RAW constructor
argument, not the canonicalized `self.dtype`. -/
def LoadFromDisk.info (op : LoadFromDisk) : DtypeId × List Bool × Option String :=
  (op.dtypeArg, op.broadcastable, op.mmap_mode)

/-- The type of a symbolic graph variable: either a `Generic()` (opaque
value) or a tensor with an element type and broadcastable pattern. -/
inductive VarType
  | generic
  | tensorT (dtype : Dtype) (broadcastable : List Bool)
  deriving DecidableEq

/-- The output variable type declared by `LoadFromDisk.make_node`
(io.py lines 34-38): `tensor(self.dtype, broadcastable=self.broadcastable)`. -/
def LoadFromDisk.make_node (op : LoadFromDisk) : VarType :=
  .tensorT op.dtype op.broadcastable

/-- `LoadFromDisk.perform` (io.py lines 40-48) acting on the node's single
output storage slot `out0`.  Returns `(raised exception?, slot after the
call)`.  Mirrors the source line by line: first the `.npz` extension check
(`ValueError`), then `numpy.load`, then the exact dtype comparison
(`TypeError`), and only on success the write `out[0][0] = result`.  A raise
leaves the slot untouched because the write is the last statement. -/
def LoadFromDisk.perform (op : LoadFromDisk) (fs : String → NpyFile)
    (path : String) (out0 : Option PyVal) : Option PyErr × Option PyVal :=
  if pathExt path = "npz" then
    (some (.valueErrorNpz path), out0)
  else
    let result := numpyLoad fs path op.mmap_mode
    if result.dtype ≠ op.dtype then
      (some (.typeErrorDtype op.dtype result.dtype), out0)
    else
      (none, some (.arr result.dtype result.shape result.data))

/-- An in-flight MPI message: posted by `comm.Isend` from process `src` to
process `dst` with tag `tag`, carrying the sent buffer. -/
structure MpiMsg where
  src : Nat
  dst : Nat
  tag : Nat
  payload : PyVal
  deriving DecidableEq

/-- The transport layer's state: the messages posted by non-blocking sends
and not yet delivered. -/
abbrev MpiState := List MpiMsg

/-- Modelled from the spec: an engine-provided output/input storage slot
(spec sections 3 and 5 — "operation compute steps only read inputs and
write outputs into engine-provided storage slots").  The MPI perform
methods index a slot at positions 0 and 1 (`out[0][0]`, `out[0][1]`,
`inp[0][0]`, `inp[0][1]`), so a slot is modelled as a position-indexed
store, grown on write. -/
abbrev Cell := List (Option PyVal)

/-- Read position `i` of a storage slot; unwritten positions read as none. -/
def cellGet (c : Cell) (i : Nat) : Option PyVal :=
  c.getD i none

/-- Write position `i` of a storage slot, growing it as needed. -/
def cellSet (c : Cell) (i : Nat) (v : PyVal) : Cell :=
  (c ++ List.replicate (i + 1 - c.length) none).set i (some v)

/-- The `MPIRecv` operation's per-node state, set by `__init__` (io.py
lines 104-110): `dtype := numpy.dtype(dtypeArg)` is canonicalized,
`broadcastable := (False,) * len(shape)`, and `_info` (modelled by
`MPIRecv.info`) retains the raw `dtypeArg`. -/
structure MPIRecv where
  rank : Nat
  tag : Nat
  shape : List Nat
  dtype : Dtype
  broadcastable : List Bool
  dtypeArg : DtypeId
  deriving DecidableEq

/-- `MPIRecv.__init__` (io.py lines 104-110). -/
def MPIRecv.init (rank tag : Nat) (dtype : DtypeId) (shape : List Nat) : MPIRecv :=
  { rank := rank, tag := tag, shape := shape, dtype := numpyDtype dtype,
    broadcastable := List.replicate shape.length false, dtypeArg := dtype }

/-- `self._info` of an `MPIRecv` node (io.py line 110): `(rank, tag, dtype,
shape)` with the RAW dtype argument. -/
def MPIRecv.info (op : MPIRecv) : Nat × Nat × DtypeId × List Nat :=
  (op.rank, op.tag, op.dtypeArg, op.shape)

/-- The output variable types declared by `MPIRecv.make_node` (io.py lines
118-121): a `Generic()` and a tensor of the configured dtype and
broadcastable pattern — two output slots. -/
def MPIRecv.make_node_outputs (op : MPIRecv) : List VarType :=
  [.generic, .tensorT op.dtype op.broadcastable]

/-- The `MPISend` operation's per-node state (io.py lines 181-184):
`_info = (rank, tag)`. -/
structure MPISend where
  rank : Nat
  tag : Nat
  deriving DecidableEq

/-- `MPISend.__init__` (io.py lines 181-184). -/
def MPISend.init (rank tag : Nat) : MPISend :=
  { rank := rank, tag := tag }

/-- `self._info` of an `MPISend` node (io.py line 184). -/
def MPISend.info (op : MPISend) : Nat × Nat :=
  (op.rank, op.tag)

/-- An `MPIRecvWait` instance: `__init__(self)` is `pass` (io.py lines
143-144), so an instance carries no configurable state. -/
structure MPIRecvWait where
  deriving DecidableEq

/-- An `MPISendWait` instance: `__init__(self)` is `pass` (io.py lines
217-218), so an instance carries no configurable state. -/
structure MPISendWait where
  deriving DecidableEq

/-- The five operation classes of io.py, as one closed sum, so that the
Python `__eq__` methods — each of which first checks
`type(self) == type(other)` — can be modelled across classes. -/
inductive OpInst
  | loader (op : LoadFromDisk)
  | mpiRecv (op : MPIRecv)
  | mpiSend (op : MPISend)
  | mpiRecvWait (self : MPIRecvWait)
  | mpiSendWait (self : MPISendWait)
  deriving DecidableEq

/-- The `__eq__` methods of the five classes, dispatched on class:
`LoadFromDisk.__eq__` (io.py lines 28-29), `MPIRecv.__eq__` (112-113) and
`MPISend.__eq__` (186-187) compare `type(self) == type(other) and
self._info == other._info`; `MPIRecvWait.__eq__` (146-147) and
`MPISendWait.__eq__` (220-221) compare `type(self) == type(other)` alone. -/
def pyEqOp : OpInst → OpInst → Bool
  | .loader a, .loader b => decide (a.info = b.info)
  | .mpiRecv a, .mpiRecv b => decide (a.info = b.info)
  | .mpiSend a, .mpiSend b => decide (a.info = b.info)
  | .mpiRecvWait _, .mpiRecvWait _ => true
  | .mpiSendWait _, .mpiSendWait _ => true
  | _, _ => false

/-- Python attribute lookup over an attribute table: a missing name raises
`AttributeError`. -/
def pyGetattr (attrs : List (String × PyVal)) (name : String) : Except PyErr PyVal :=
  match attrs.lookup name with
  | some v => .ok v
  | none => .error (.attributeError name)

/-- Attributes set on an `MPIRecvWait` instance: its `__init__` body is
`pass` (io.py line 144), so the instance dictionary stays empty. -/
def MPIRecvWait.instanceAttrs (_self : MPIRecvWait) : List (String × PyVal) := []

/-- Attributes set on an `MPISendWait` instance: its `__init__` body is
`pass` (io.py line 218), so the instance dictionary stays empty. -/
def MPISendWait.instanceAttrs (_self : MPISendWait) : List (String × PyVal) := []

/-- Modelled from the spec: the attributes the `gof.Op` base class (not
under src/) contributes to an operation instance.  Spec section 6 specifies
operations only through `makeNode`, compute steps and equality; it gives an
operation no `type` attribute, so the base class contributes none relevant
here. -/
def opBaseAttrs : List (String × PyVal) := []

/-- Python's `hash` on a value; only ever applied after a successful
attribute lookup, so its particular values are irrelevant to the claims. -/
def pyHashVal : PyVal → Nat
  | .arr _ shape data => shape.length + data.length
  | .req _ => 1
  | .pybool b => if b then 1 else 0

/-- `MPIRecvWait.__hash__` (io.py lines 149-150): `hash(self.type)` — look
up the attribute `type` on the instance (then the base class), then hash
it. -/
def MPIRecvWait.hash (self : MPIRecvWait) : Except PyErr Nat :=
  (pyGetattr (self.instanceAttrs ++ opBaseAttrs) "type").map pyHashVal

/-- `MPISendWait.__hash__` (io.py lines 223-224): `hash(self.type)`. -/
def MPISendWait.hash (self : MPISendWait) : Except PyErr Nat :=
  (pyGetattr (self.instanceAttrs ++ opBaseAttrs) "type").map pyHashVal

/-- Models `numpy.empty(shape, dtype)` (io.py line 124): a fresh buffer of
the given shape and dtype.  The uninitialized contents are modelled as
zeros; they are never observed, being overwritten by the receive before any
read. -/
def numpyEmpty (shape : List Nat) (dt : Dtype) : PyVal :=
  .arr dt shape (List.replicate (shape.foldr (· * ·) 1) 0)

/-- `MPIRecv.perform` (io.py lines 122-128), run by the process of rank
`me` with module global `mpiAvailable` recording whether the mpi4py
module loaded successfully (lines 85-90).  In source order: allocate the buffer
with `numpy.empty`, then `comm.Irecv(data, self.rank, self.tag)` — which is
a `NameError` on the unbound global `comm` when the import failed — then
the writes `out[0][0] = request` and `out[0][1] = data`: both components go
into the FIRST output slot; the second output slot is never written.
Posting a non-blocking receive changes no transport state in this model;
matching happens at wait time. -/
def MPIRecv.performE (mpiAvailable : Bool) (op : MPIRecv) (me : Nat)
    (st : MpiState) (out : List Cell) : Except PyErr (MpiState × List Cell) :=
  let data := numpyEmpty op.shape op.dtype
  if mpiAvailable then
    let request := MpiRequest.recvReq me op.rank op.tag
    .ok (st, out.set 0 (cellSet (cellSet (out.getD 0 []) 0 (.req request)) 1 data))
  else
    .error (.nameError "comm")

/-- `MPISend.perform` (io.py lines 196-202), run by the process of rank
`me`.  In source order: `data = inp[0][0]` (an `IndexError` if the slot is
unwritten), then `request = comm.Isend(data, self.rank, self.tag)` (a
`NameError` on the unbound global `comm` when the mpi4py import failed) —
which posts the message — then `out[0][0] = request`. -/
def MPISend.performE (mpiAvailable : Bool) (op : MPISend) (me : Nat)
    (st : MpiState) (inp0 : Cell) (out : List Cell) :
    Except PyErr (MpiState × List Cell) :=
  match cellGet inp0 0 with
  | none => .error .indexError
  | some data =>
    if mpiAvailable then
      .ok (st ++ [{ src := me, dst := op.rank, tag := op.tag, payload := data }],
           out.set 0 (cellSet (out.getD 0 []) 0 (.req (.sendReq me op.rank op.tag))))
    else
      .error (.nameError "comm")

/-- Models `request.wait()` on a receive request: find the first posted
message from `src` to `me` with tag `tag` and deliver it into the buffer of
dtype `dt` and shape `shape`.  Returns the filled buffer, or `none` when
the wait does not complete normally (no matching message ever arrives — the
wait blocks — or the message does not fit the buffer — a transport error;
no claim depends on distinguishing the two). -/
def mpiMatchRecv (st : MpiState) (me src tag : Nat) (dt : Dtype)
    (shape : List Nat) : Option PyVal :=
  match st.find? (fun m => m.src == src && m.dst == me && m.tag == tag) with
  | some m =>
    match m.payload with
    | .arr pd ps pdata => if pd == dt && ps == shape then some (.arr dt shape pdata) else none
    | _ => none
  | none => none

/-- `MPIRecvWait.perform` (io.py lines 158-165): `request = inp[0][0]`,
`data = inp[0][1]` — both components of the handle are read from the FIRST
input slot — then `request.wait()` fills the buffer, then `out[0][0] =
data`.  Returns `none` when the call does not complete normally (malformed
handle, or the wait blocks forever / fails). -/
def MPIRecvWait.perform (st : MpiState) (inp0 : Cell) (out : List Cell) :
    Option (List Cell) :=
  match cellGet inp0 0, cellGet inp0 1 with
  | some (.req (.recvReq me src tag)), some (.arr dt shape _) =>
    match mpiMatchRecv st me src tag dt shape with
    | some filled => some (out.set 0 (cellSet (out.getD 0 []) 0 filled))
    | none => none
  | _, _ => none

/-- `MPISendWait.perform` (io.py lines 229-232): `request = inp[0][0]`,
`request.wait()`, `out[0][0] = True`.  A non-blocking send's wait completes
without consulting the transport state or the module's MPI availability —
the method touches no module global. -/
def MPISendWait.perform (inp0 : Cell) (out : List Cell) : Option (List Cell) :=
  match cellGet inp0 0 with
  | some (.req (.sendReq _ _ _)) => some (out.set 0 (cellSet (out.getD 0 []) 0 (.pybool true)))
  | _ => none

/-- Module startup (io.py lines 85-90): `try: from mpi4py import MPI ...
mpi_enabled = True except: mpi_enabled = False`.  The flag records whether
the import succeeded; nothing else in the module reads it. -/
def mpi_enabled (importSucceeded : Bool) : Bool :=
  importSucceeded

/-!
The end-to-end transfer scenario (spec section 8, property 5): process A
(rank 0) sends tensor `[1,2,3]` to process B (rank 1) with tag 7; B posts
the matching receive for element type int64 and a rank-1 shape, giving
shape pattern `(False,)`; then each process runs its wait.
-/

/-- The transferred tensor `[1,2,3]` of element type int64. -/
def tensor123 : PyVal := .arr .int64 [3] [1, 2, 3]

/-- A's send node: `MPISend(rank=1, tag=7)` — destination B. -/
def sendOpAB : MPISend := MPISend.init 1 7

/-- B's receive node: `MPIRecv(rank=0, tag=7, dtype='int64', shape=(3,))` —
source A; its broadcastable pattern is `(False,)`. -/
def recvOpBA : MPIRecv := MPIRecv.init 0 7 .i64 [3]

/-- Step 1: A (rank 0) runs `MPISend.perform` on input slot holding
`[1,2,3]`, with MPI available and no message in flight. -/
def scenStep1 : Except PyErr (MpiState × List Cell) :=
  MPISend.performE true sendOpAB 0 [] [some tensor123] [[none]]

/-- The transport state after A's send. -/
def scenSt1 : MpiState :=
  match scenStep1 with
  | .ok (st, _) => st
  | .error _ => []

/-- A's output storage (one slot) after the send: the send handle. -/
def scenOutA : List Cell :=
  match scenStep1 with
  | .ok (_, out) => out
  | .error _ => []

/-- Step 2: B (rank 1) runs `MPIRecv.perform` on fresh two-slot output
storage. -/
def scenStep2 : Except PyErr (MpiState × List Cell) :=
  MPIRecv.performE true recvOpBA 1 scenSt1 [[none], [none]]

/-- The transport state after B posts the receive. -/
def scenSt2 : MpiState :=
  match scenStep2 with
  | .ok (st, _) => st
  | .error _ => []

/-- B's output storage (two slots) after posting the receive. -/
def scenOutB : List Cell :=
  match scenStep2 with
  | .ok (_, out) => out
  | .error _ => []

/-- Step 3: B runs `MPIRecvWait.perform` on the handle it got from
`MPIRecv.perform` (the contents of B's first output slot). -/
def scenStep3 : Option (List Cell) :=
  MPIRecvWait.perform scenSt2 (scenOutB.getD 0 []) [[none]]

/-- Step 4: A runs `MPISendWait.perform` on the handle it got from
`MPISend.perform`. -/
def scenStep4 : Option (List Cell) :=
  MPISendWait.perform (scenOutA.getD 0 []) [[none]]

/-- A loader configured for float64 vectors via the canonical identifier. -/
def loaderW : LoadFromDisk :=
  { dtype := .float64, broadcastable := [false], mmap_mode := none, dtypeArg := .f64 }

/-- A loader configured through the alias identifier `d`, which
canonicalizes to the same element type as `f64`. -/
def loaderAliasD : LoadFromDisk :=
  { dtype := .float64, broadcastable := [false], mmap_mode := none, dtypeArg := .d }

/-- A filesystem whose every file stores the int64 array `[1,2,3]`. -/
def fsIntFile : String → NpyFile := fun _ => ⟨.int64, [3], [1, 2, 3]⟩

/-- A filesystem whose every file stores the float64 array `[4,5]`. -/
def fsF64File : String → NpyFile := fun _ => ⟨.float64, [2], [4, 5]⟩

/-- C1, counterexample: `MPIRecv.make_node` declares two output slots, but
after `MPIRecv.perform` runs in the transfer scenario the second output
slot is still unwritten and the first slot holds BOTH components (the
request at position 0 and the buffer at position 1) — so the handle's two
components are not "placed in the node's two output slots" as the claim
states. -/
theorem mpiRecv_two_slot_claim_counterexample :
    (MPIRecv.make_node_outputs recvOpBA).length = 2 ∧
    scenOutB.getD 1 [] = [none] ∧
    scenOutB.getD 0 [] =
      [some (PyVal.req (MpiRequest.recvReq 1 0 7)),
       some (PyVal.arr Dtype.int64 [3] [0, 0, 0])] := by
  decide

/-- C1, amended: in the end-to-end transfer scenario (A sends `[1,2,3]` to
B with tag 7; B posts the matching int64 receive with shape pattern
`(False,)`), `MPIRecv.perform` emits the handle by writing both the
request and the buffer into the node's FIRST output slot (positions 0 and
1), leaving the second output slot unwritten; after each process runs its
wait on the handle read from that slot, B's `MPIRecvWait.perform` yields
the tensor `[1,2,3]` and A's `MPISendWait.perform` yields `True`. -/
theorem mpi_end_to_end_transfer :
    scenOutB =
      [[some (PyVal.req (MpiRequest.recvReq 1 0 7)),
        some (PyVal.arr Dtype.int64 [3] [0, 0, 0])], [none]] ∧
    scenStep3 = some [[some tensor123]] ∧
    scenStep4 = some [[some (PyVal.pybool true)]] := by
  decide

/-- C2: for every loader configuration, filesystem, path and output slot,
`LoadFromDisk.perform` raises the format `ValueError` whenever the path's
last dot-component is `npz`, regardless of the file's contents; otherwise,
when the stored element type differs from the configured one, it raises
the mismatch `TypeError`; in both cases the output slot is left exactly as
it was. -/
theorem load_error_cases (op : LoadFromDisk) (fs : String → NpyFile)
    (path : String) (out0 : Option PyVal) :
    (pathExt path = "npz" →
      LoadFromDisk.perform op fs path out0 = (some (.valueErrorNpz path), out0)) ∧
    (pathExt path ≠ "npz" → (fs path).dtype ≠ op.dtype →
      LoadFromDisk.perform op fs path out0 =
        (some (.typeErrorDtype op.dtype (fs path).dtype), out0)) := by
  constructor
  · intro h
    simp [LoadFromDisk.perform, h]
  · intro h1 h2
    simp [LoadFromDisk.perform, numpyLoad, h1, h2]

/-- C2, witness: the npz branch on path `arrs.npz` and the mismatch branch
on an int64 file read by a float64 loader, both leaving the slot empty. -/
theorem load_error_cases_witness :
    LoadFromDisk.perform loaderW fsIntFile "arrs.npz" none =
      (some (.valueErrorNpz "arrs.npz"), none) ∧
    LoadFromDisk.perform loaderW fsIntFile "arr.npy" none =
      (some (.typeErrorDtype Dtype.float64 Dtype.int64), none) :=
  ⟨(load_error_cases loaderW fsIntFile "arrs.npz" none).1 (by decide),
   (load_error_cases loaderW fsIntFile "arr.npy" none).2 (by decide) (by decide)⟩

/-- C3: for every element type and shape pattern, `LoadFromDisk.__init__`
succeeds exactly when the mmap mode is `None` or `'c'` — any other mode is
the construction-time configuration `ValueError` — and a successfully
constructed loader's compute step never raises that configuration error
(it is never deferred to execution). -/
theorem loader_mmap_validation (dt : DtypeId) (b : List Bool) (m : Option String) :
    ((∃ op, LoadFromDisk.init dt b m = .ok op) ↔ (m = none ∨ m = some "c")) ∧
    (∀ op, LoadFromDisk.init dt b m = .ok op →
      ∀ (fs : String → NpyFile) (path : String) (out0 : Option PyVal) (g : Option String),
        (LoadFromDisk.perform op fs path out0).1 ≠ some (.valueErrorMmap g)) := by
  constructor
  · by_cases h : m = none ∨ m = some "c" <;> simp [LoadFromDisk.init, h]
  · intro op hop fs path out0 g
    by_cases h1 : pathExt path = "npz"
    · simp [LoadFromDisk.perform, h1]
    · by_cases h2 : (fs path).dtype = op.dtype <;>
        simp [LoadFromDisk.perform, numpyLoad, h1, h2]

/-- C3, witness: the float64 vector loader with `mmap_mode = None`
constructs, and its compute step on a matching file raises no
configuration error. -/
theorem loader_mmap_validation_witness :
    (LoadFromDisk.perform loaderW fsIntFile "arr.npy" none).1 ≠
      some (PyErr.valueErrorMmap (some "r")) :=
  (loader_mmap_validation DtypeId.f64 [false] none).2 loaderW (by decide)
    fsIntFile "arr.npy" none (some "r")

/-- C4: for every loader and every non-archive file whose stored element
type matches the loader's configured (canonical) element type,
`LoadFromDisk.perform` succeeds and yields an array of exactly the
configured element type, and `LoadFromDisk.make_node` declares an output
of the configured element type and configured broadcastable pattern. -/
theorem load_matching_dtype (op : LoadFromDisk) (fs : String → NpyFile)
    (path : String) (out0 : Option PyVal) :
    pathExt path ≠ "npz" → (fs path).dtype = op.dtype →
    LoadFromDisk.perform op fs path out0 =
      (none, some (.arr op.dtype (fs path).shape (fs path).data)) ∧
    LoadFromDisk.make_node op = .tensorT op.dtype op.broadcastable := by
  intro h1 h2
  refine ⟨?_, rfl⟩
  simp [LoadFromDisk.perform, numpyLoad, h1, h2]

/-- C4, witness: the float64 loader reading a float64 file yields the
stored array at the configured type, and its node output carries
`(float64, (False,))`. -/
theorem load_matching_dtype_witness :
    LoadFromDisk.perform loaderW fsF64File "arr.npy" none =
      (none, some (PyVal.arr Dtype.float64 [2] [4, 5])) ∧
    LoadFromDisk.make_node loaderW = VarType.tensorT Dtype.float64 [false] :=
  load_matching_dtype loaderW fsF64File "arr.npy" none (by decide) (by decide)

/-- C5, counterexample: the identifiers `d` and `float64` canonicalize to
the same element type, so `loaderAliasD` and `loaderW` agree on
canonicalized element type, shape pattern and mmap mode — yet
`LoadFromDisk.__eq__` compares the RAW identifier kept in `_info` and
reports them unequal, refuting the claim's "in particular" clause. -/
theorem loader_eq_canonical_dtype_counterexample :
    LoadFromDisk.init .d [false] none = .ok loaderAliasD ∧
    LoadFromDisk.init .f64 [false] none = .ok loaderW ∧
    loaderAliasD.dtype = loaderW.dtype ∧
    loaderAliasD.broadcastable = loaderW.broadcastable ∧
    loaderAliasD.mmap_mode = loaderW.mmap_mode ∧
    pyEqOp (.loader loaderAliasD) (.loader loaderW) = false := by
  decide

/-- C5, amended: two loader nodes are equal if and only if their RAW
configured type identifiers (the constructor argument stored in `_info`,
before `numpy.dtype` canonicalization), their shape patterns, and their
mmap modes are all equal; identifiers that merely canonicalize to the same
element type do not make the nodes equal. -/
theorem loader_eq_iff_raw_info (a b : LoadFromDisk) :
    pyEqOp (.loader a) (.loader b) = true ↔
      (a.dtypeArg = b.dtypeArg ∧ a.broadcastable = b.broadcastable ∧
       a.mmap_mode = b.mmap_mode) := by
  simp [pyEqOp, LoadFromDisk.info, Prod.mk.injEq]

/-- C6: two Receive nodes are equal exactly when their configured (source
rank, tag, dtype argument, shape) all agree — so changing any one of the
four makes them unequal — and two Send nodes are equal exactly when their
(destination rank, tag) agree. -/
theorem mpi_node_equality_iff (a b : MPIRecv) (c e : MPISend) :
    (pyEqOp (.mpiRecv a) (.mpiRecv b) = true ↔
      (a.rank = b.rank ∧ a.tag = b.tag ∧ a.dtypeArg = b.dtypeArg ∧ a.shape = b.shape)) ∧
    (pyEqOp (.mpiSend c) (.mpiSend e) = true ↔ (c.rank = e.rank ∧ c.tag = e.tag)) := by
  constructor <;> simp [pyEqOp, MPIRecv.info, MPISend.info, Prod.mk.injEq]

/-- C7: the Wait operations carry no configurable state, every two
`MPIRecvWait` instances are equal, every two `MPISendWait` instances are
equal, and instances of the two different Wait kinds are unequal in both
comparison orders. -/
theorem wait_ops_equality_by_kind :
    (∀ x y : MPIRecvWait, pyEqOp (.mpiRecvWait x) (.mpiRecvWait y) = true) ∧
    (∀ x y : MPISendWait, pyEqOp (.mpiSendWait x) (.mpiSendWait y) = true) ∧
    (∀ (x : MPIRecvWait) (y : MPISendWait),
      pyEqOp (.mpiRecvWait x) (.mpiSendWait y) = false ∧
      pyEqOp (.mpiSendWait y) (.mpiRecvWait x) = false) :=
  ⟨fun _ _ => rfl, fun _ _ => rfl, fun _ _ => ⟨rfl, rfl⟩⟩

/-- C8, counterexample: with the transport unavailable
(`mpi_enabled false = false`), a Wait operation is not disabled and fails
with no configuration error — `MPISendWait.perform` on a send handle
succeeds and yields `True` — and the Receive compute step's failure is a
`NameError` on the unbound global `comm`, not a configuration error. -/
theorem mpi_unavailable_counterexample :
    MPISendWait.perform [some (PyVal.req (MpiRequest.sendReq 0 1 7))] [[none]] =
      some [[some (PyVal.pybool true)]] ∧
    MPIRecv.performE (mpi_enabled false) recvOpBA 1 [] [[none], [none]] =
      .error (PyErr.nameError "comm") := by
  decide

/-- C8, amended: when the mpi4py import fails at module startup the module
only records `mpi_enabled = False`; the Send and Receive compute steps then
fail with a `NameError` on the unbound global `comm` whenever used, the
Wait compute steps do not consult the transport at all, and the loader is
unaffected (its compute step succeeds on a matching file as always). -/
theorem mpi_unavailable_behavior :
    (∀ (op : MPIRecv) (me : Nat) (st : MpiState) (out : List Cell),
      MPIRecv.performE (mpi_enabled false) op me st out = .error (.nameError "comm")) ∧
    (∀ (op : MPISend) (me : Nat) (st : MpiState) (data : PyVal) (out : List Cell),
      MPISend.performE (mpi_enabled false) op me st [some data] out =
        .error (.nameError "comm")) ∧
    LoadFromDisk.perform loaderW fsF64File "arr.npy" none =
      (none, some (PyVal.arr Dtype.float64 [2] [4, 5])) := by
  refine ⟨fun op me st out => rfl, fun op me st data out => rfl, by decide⟩

/-- C9: computing `__hash__` on any freshly constructed Wait instance
raises `AttributeError` on the never-defined attribute `type`, for both
`MPIRecvWait` and `MPISendWait`, even though the equality comparisons of
both kinds succeed. -/
theorem wait_hash_attribute_error :
    (∀ self : MPIRecvWait, MPIRecvWait.hash self = .error (.attributeError "type")) ∧
    (∀ self : MPISendWait, MPISendWait.hash self = .error (.attributeError "type")) ∧
    (∀ x y : MPIRecvWait, pyEqOp (.mpiRecvWait x) (.mpiRecvWait y) = true) ∧
    (∀ x y : MPISendWait, pyEqOp (.mpiSendWait x) (.mpiSendWait y) = true) :=
  ⟨fun _ => rfl, fun _ => rfl, fun _ _ => rfl, fun _ _ => rfl⟩

/-- C10: for every constructed Receive node, the broadcastable pattern is
`(False,) * len(shape)`: its length equals the declared rank and every
axis is marked non-broadcastable. -/
theorem mpirecv_broadcastable_pattern (rank tag : Nat) (dtype : DtypeId)
    (shape : List Nat) :
    (MPIRecv.init rank tag dtype shape).broadcastable =
      List.replicate shape.length false ∧
    (MPIRecv.init rank tag dtype shape).broadcastable.length = shape.length ∧
    (MPIRecv.init rank tag dtype shape).broadcastable.all (fun b => !b) = true := by
  refine ⟨rfl, by simp [MPIRecv.init], ?_⟩
  simp only [MPIRecv.init, List.all_eq_true]
  intro x hx
  rw [List.eq_of_mem_replicate hx]
  rfl
